import Mathlib

/-!
Verification development for the openfpv compatibility engine
(`openfpv_compat/engine.py`, `openfpv_compat/summarize.py`,
`openfpv_compat/schema.py`).

Shallow embedding conventions:
* pandas float columns (which may hold NaN) are modelled as `Option ℚ`
  (`none` = NaN/null); all arithmetic is exact rational arithmetic.
* object/string columns that may hold null are `Option String`.
* Python text manipulation is modelled over `List Char`; `str.upper` /
  `str.lower` are modelled on the ASCII letters (the repository's
  vocabulary is ASCII).
* pandas `merge` matches null keys with null keys (pandas treats NA as an
  ordinary key value in joins); the join helpers below use plain equality
  of `Option` values, which has the same behaviour.
* A DataFrame is a column-name list plus rows of cells.
-/

unseal Rat.mul Rat.add Rat.sub Rat.inv Rat.ofScientific

/-- Python whitespace as stripped by `str.strip()` / split by `str.split()`. -/
def isPyWhite (c : Char) : Bool :=
  c = ' ' || c = '\t' || c = '\n' || c = '\r' || c = '\x0b' || c = '\x0c'

/-- The ASCII lower/upper letter pairs. -/
def upPairs : List (Char × Char) :=
  [('a', 'A'), ('b', 'B'), ('c', 'C'), ('d', 'D'), ('e', 'E'), ('f', 'F'),
   ('g', 'G'), ('h', 'H'), ('i', 'I'), ('j', 'J'), ('k', 'K'), ('l', 'L'),
   ('m', 'M'), ('n', 'N'), ('o', 'O'), ('p', 'P'), ('q', 'Q'), ('r', 'R'),
   ('s', 'S'), ('t', 'T'), ('u', 'U'), ('v', 'V'), ('w', 'W'), ('x', 'X'),
   ('y', 'Y'), ('z', 'Z')]

/-- ASCII model of Python `str.upper` acting on a single character. -/
def upChar (c : Char) : Char :=
  match upPairs.find? (fun p => p.1 = c) with
  | some p => p.2
  | none => c

/-- ASCII model of Python `str.lower` acting on a single character. -/
def lowChar (c : Char) : Char :=
  match upPairs.find? (fun p => p.2 = c) with
  | some p => p.1
  | none => c

/-- Python `str.strip()`: drop leading and trailing whitespace. -/
def pyStrip (l : List Char) : List Char :=
  ((l.dropWhile isPyWhite).reverse.dropWhile isPyWhite).reverse

/-- Python `str.replace(a, b)` for single characters. -/
def replaceChar (a b : Char) (l : List Char) : List Char :=
  l.map (fun c => if c = a then b else c)

/-- Python `str.replace(a, "")` for a single character. -/
def removeChar (a : Char) (l : List Char) : List Char :=
  l.filter (fun c => c ≠ a)

/-- Python `str.split(sep)` for a single-character separator:
`"".split(",") = [""]`, separators delimit possibly-empty fields. -/
def splitOn (sep : Char) : List Char → List (List Char)
  | [] => [[]]
  | c :: cs =>
    if c = sep then [] :: splitOn sep cs
    else
      match splitOn sep cs with
      | [] => [[c]]
      | t :: ts => (c :: t) :: ts

/-- Helper for `splitWs`: accumulates the current (reversed) token. -/
def splitWsAux : List Char → List Char → List (List Char)
  | acc, [] => if acc.isEmpty then [] else [acc.reverse]
  | acc, c :: cs =>
    if isPyWhite c then
      if acc.isEmpty then splitWsAux [] cs else acc.reverse :: splitWsAux [] cs
    else splitWsAux (c :: acc) cs

/-- Python `str.split()` with no argument: split on whitespace runs,
dropping empty tokens. -/
def splitWs (l : List Char) : List (List Char) :=
  splitWsAux [] l

/-- Python `sep.join(tokens)` at the character-list level. -/
def joinSep (sep : List Char) : List (List Char) → List Char
  | [] => []
  | [x] => x
  | x :: y :: ys => x ++ sep ++ joinSep sep (y :: ys)

/-- Does `hay` start with `needle`? -/
def listStarts : List Char → List Char → Bool
  | _, [] => true
  | [], _ :: _ => false
  | a :: as, b :: bs => a = b && listStarts as bs

/-- Python `needle in hay` substring test. -/
def listSub : List Char → List Char → Bool
  | [], needle => needle.isEmpty
  | a :: as, needle => listStarts (a :: as) needle || listSub as needle

/-- `ALLOWED_MOUNTS` from `schema.py`, as character lists. -/
def allowedMounts : List (List Char) :=
  ["9x9".data, "12x12".data, "16x16".data, "19x19".data, "20x20".data,
   "25.5x25.5".data, "30.5x30.5".data]

/-- The legacy-alias remap of `_canon_mount_list`
(`30x30` → `30.5x30.5`, `25x25` → `25.5x25.5`). -/
def mountAlias (t1 : List Char) : List Char :=
  if t1 = "30x30".data then "30.5x30.5".data
  else if t1 = "25x25".data then "25.5x25.5".data
  else t1

/-- One iteration of the token loop of `_canon_mount_list`: strip and
lowercase the token, skip it when empty, remap the legacy aliases, append
it when it is an allowed mount not already collected. -/
def mountStep (out : List (List Char)) (t : List Char) : List (List Char) :=
  let t1 := (pyStrip t).map lowChar
  if t1 = [] then out
  else if mountAlias t1 ∈ allowedMounts ∧ mountAlias t1 ∉ out then
    out ++ [mountAlias t1]
  else out

/-- The token loop of `_canon_mount_list` (`out` is the accumulator,
preserving first-occurrence order). -/
def canonMountFold : List (List Char) → List (List Char) → List (List Char)
  | out, [] => out
  | out, t :: ts => canonMountFold (mountStep out t) ts

/-- `_canon_mount_list` on a string input: `str(val).replace("×","x")
.replace(" ","").split(",")`, then the token loop. -/
def canonMountStr (s : String) : List String :=
  (canonMountFold [] (splitOn ',' (removeChar ' ' (replaceChar '×' 'x' s.data)))).map
    (fun l => String.mk l)

/-- `_canon_mount_list` on a list input: tokens are taken as given
(`[str(x) for x in val]`), then the token loop. -/
def canonMountOfList (l : List String) : List String :=
  (canonMountFold [] (l.map String.data)).map (fun l => String.mk l)

/-- `", ".join(tokens)` as used at `engine.py` line 272. -/
def joinCommaSpace (l : List String) : String :=
  String.mk (joinSep ", ".data (l.map String.data))

/-- `_canon_connector`: canonicalize RF connector tokens.  The input is
stripped, uppercased, `_`/`-`/`.` become spaces, whitespace runs are
collapsed (`" ".join(s.split())`), then ordered substring tests fire. -/
def canonConnector (value : Option String) : Option String :=
  match value with
  | none => none
  | some v =>
    let s := joinSep [' ']
      (splitWs (replaceChar '.' ' ' (replaceChar '-' ' ' (replaceChar '_' ' '
        ((pyStrip v.data).map upChar)))))
    if listSub s "RP SMA".data then some "RP-SMA"
    else if listSub s "SMA".data then some "SMA"
    else if listSub s "MMCX".data then some "MMCX"
    else if listSub s "MCX".data ∧ ¬ listSub s "MMCX".data then some "MCX"
    else if listSub s "MHF4".data ∨ listSub s "IPEX 4".data then some "IPEX MHF4"
    else if listSub s "MHF1".data ∨ listSub s "IPEX 1".data then some "IPEX MHF1"
    else if listSub s "U FL".data ∨ listSub s "UFL".data ∨ listSub s "IPEX".data then
      some "U.FL"
    else none

/-- `_canon_power_conn`: strip, uppercase, delete spaces and hyphens, then
exact-set matches with an uppercased pass-through fallback.  `none` models
both `None` and float NaN input. -/
def canonPowerConn (s : Option String) : Option String :=
  match s with
  | none => none
  | some v =>
    let t := removeChar '-' (removeChar ' ' ((pyStrip v.data).map upChar))
    if t ∈ ["XT30".data, "AMASSXT30".data, "XT30U".data] then some "XT30"
    else if t ∈ ["XT60".data, "AMASSXT60".data, "XT60H".data] then some "XT60"
    else if t ∈ ["XT90".data, "XT90S".data] then some "XT90"
    else if t ∈ ["EC3".data] then some "EC3"
    else if t ∈ ["EC5".data] then some "EC5"
    else if t ∈ ["JSTRCY".data, "JST".data] then some "JST-RCY"
    else some (String.mk t)

/-- `_canon_prop_hub`: coarse prop hub class, `"M5"` or `"T-MOUNT"`. -/
def canonPropHub (s : Option String) : Option String :=
  match s with
  | none => none
  | some v =>
    let t := removeChar '_' (removeChar '-' ((pyStrip v.data).map lowChar))
    if listSub t "m5".data ∨ listSub t "5mm".data then some "M5"
    else if listSub t "tmount".data ∨ t ∈ ["t".data, "tmnt".data] then some "T-MOUNT"
    else none

/-- `_motor_hub_from_shaft`: infer the motor prop interface from the shaft
diameter; the open interval (2.1, 4.8) is a deliberate dead zone. -/
def motorHubFromShaft (shaft : Option ℚ) : Option String :=
  match shaft with
  | none => none
  | some x =>
    if x ≥ 24/5 then some "M5"
    else if x ≤ 21/10 then some "T-MOUNT"
    else none

/-- `_s_overlap`: inclusive range-overlap test, `none` (NaN) on any
missing bound. -/
def sOverlap (amin amax bmin bmax : Option ℚ) : Option Bool :=
  match amin, amax, bmin, bmax with
  | some a1, some a2, some b1, some b2 => some (max a1 b1 ≤ min a2 b2)
  | _, _, _, _ => none

/-- One normalized part record: the columns of the parts DataFrame that
`build_compat` reads.  `sku`/`name`/`type` are always strings after
`load_parts` (missing values default to `""`); every other column may be
null (`none` = NaN). -/
structure PartRec where
  sku : String := ""
  name : String := ""
  type : String := ""
  frame_max_prop_in : Option ℚ := none
  frame_fc_mount_pattern_eff : Option String := none
  frame_motor_mount_pattern_eff : Option String := none
  prop_diameter_in : Option ℚ := none
  prop_hub_eff : Option String := none
  shaft_mm : Option ℚ := none
  max_current_a : Option ℚ := none
  cells_min : Option ℚ := none
  cells_max : Option ℚ := none
  motor_mount_pattern_eff : Option String := none
  esc_continuous_current_a : Option ℚ := none
  esc_cells_min : Option ℚ := none
  esc_cells_max : Option ℚ := none
  esc_batt_connector_eff : Option String := none
  esc_mount_pattern_eff : Option String := none
  battery_connector_eff : Option String := none
  cell_count : Option ℚ := none
  fc_mount_pattern_eff : Option String := none
  fc_bec_5v_a : Option ℚ := none
  fc_bec_9v_a : Option ℚ := none
  fc_bec_10v_a : Option ℚ := none
  fc_bec_12v_a : Option ℚ := none
  fc_vbat_min_s : Option ℚ := none
  fc_vbat_max_s : Option ℚ := none
  vtx_system : Option String := none
  vtx_ant_conn : Option String := none
  vtx_ant_conn_eff : Option String := none
  vtx_5v_current_a : Option ℚ := none
  vtx_9v_current_a : Option ℚ := none
  vtx_10v_current_a : Option ℚ := none
  vtx_12v_current_a : Option ℚ := none
  vtx_input_s_min : Option ℚ := none
  vtx_input_s_max : Option ℚ := none
  camera_system : Option String := none
  camera_input_v_min : Option ℚ := none
  camera_input_v_max : Option ℚ := none
  camera_5v_current_a : Option ℚ := none
  antenna_conn : Option String := none
  antenna_conn_eff : Option String := none
  antenna_band_ghz : Option ℚ := none
  antenna_use : Option String := none
  rx_ant_conn : Option String := none
  rx_band_ghz : Option ℚ := none
  pigtail_connector_eff : Option String := none
  capacitor_voltage_v : Option ℚ := none
deriving DecidableEq, Repr

/-- One DataFrame cell. -/
inductive Cell where
  | null : Cell
  | num : ℚ → Cell
  | str : String → Cell
deriving DecidableEq, Repr

/-- A result DataFrame: column names plus rows of cells. -/
structure DF where
  cols : List String
  rows : List (List Cell)
deriving DecidableEq, Repr

/-- Render an `Option ℚ` column value as a cell. -/
def optQ : Option ℚ → Cell
  | none => Cell.null
  | some q => Cell.num q

/-- Render an `Option String` column value as a cell. -/
def optS : Option String → Cell
  | none => Cell.null
  | some s => Cell.str s

/-- Type slice of the parts table (`df[df["type"] == t]`). -/
def typeSlice (parts : List PartRec) (t : String) : List PartRec :=
  parts.filter (fun p => p.type = t)

/-- Build one result table: each candidate pair contributes its data cells
followed by the `status` and `reason` cells. -/
def ruleTable (cols : List String) (cands : List (PartRec × PartRec))
    (fields : PartRec → PartRec → List Cell) (ev : PartRec → PartRec → String × String) : DF :=
  { cols := cols,
    rows := cands.map (fun c =>
      fields c.1 c.2 ++ [Cell.str (ev c.1 c.2).1, Cell.str (ev c.1 c.2).2]) }

/-- Inner equality-join of two slices on `Option String` keys, in left-key
order.  pandas `merge` matches NA keys with NA keys, hence plain equality
of `Option` values. -/
def joinOn (a b : List PartRec) (ka kb : PartRec → Option String) : List (PartRec × PartRec) :=
  a.flatMap (fun x => (b.filter (fun y => kb y = ka x)).map (fun y => (x, y)))

/-- Inner equality-join on a pair of `Option String` keys (used by the
rx↔antenna rule, which joins on connector and band bucket). -/
def joinOn2 (a b : List PartRec) (ka kb : PartRec → Option String × Option String) :
    List (PartRec × PartRec) :=
  a.flatMap (fun x => (b.filter (fun y => kb y = ka x)).map (fun y => (x, y)))

/-- Approximate model of Python `f"{x:.1f}"` (used only inside a reason
string): round to one decimal place, half away from zero at the rational
level.  The claims never inspect this text. -/
def fmt1 (q : ℚ) : String :=
  let n : ℤ := ⌊10 * q + 1/2⌋
  let a := n.natAbs
  (if n < 0 then "-" else "") ++ toString (a / 10) ++ "." ++ toString (a % 10)

/-- frame↔prop candidates: frames with `frame_max_prop_in` × props with
`prop_diameter_in` (rows with the size field NaN are dropped). -/
def framePropCands (parts : List PartRec) : List (PartRec × PartRec) :=
  List.product
    ((typeSlice parts "frame").filter (fun p => p.frame_max_prop_in.isSome))
    ((typeSlice parts "prop").filter (fun p => p.prop_diameter_in.isSome))

/-- frame↔prop predicate: `np.where(prop_diameter_in <= frame_max_prop_in)`
(a NaN comparison is false, though NaN is excluded by the dropna). -/
def evalFrameProp (f p : PartRec) : String × String :=
  match p.prop_diameter_in, f.frame_max_prop_in with
  | some d, some m =>
    if d ≤ m then ("PASS", "Prop diameter ≤ frame max")
    else ("FAIL", "Prop diameter > frame max")
  | _, _ => ("FAIL", "Prop diameter > frame max")

/-- Mount-pattern set overlap: both sides are re-parsed with
`_canon_mount_list` and intersected as sets. -/
def mountsOverlap (a b : Option String) : Bool :=
  match a, b with
  | some x, some y => (canonMountStr x).any (fun t => (canonMountStr y).contains t)
  | _, _ => false

/-- frame↔fc candidates (both mount-pattern strings present). -/
def frameFcCands (parts : List PartRec) : List (PartRec × PartRec) :=
  List.product
    ((typeSlice parts "frame").filter (fun p => p.frame_fc_mount_pattern_eff.isSome))
    ((typeSlice parts "fc").filter (fun p => p.fc_mount_pattern_eff.isSome))

/-- frame↔fc predicate: PASS iff the canonical mount sets intersect. -/
def evalFrameFc (f c : PartRec) : String × String :=
  if mountsOverlap f.frame_fc_mount_pattern_eff c.fc_mount_pattern_eff then
    ("PASS", "Mount pattern overlaps")
  else ("FAIL", "No common mount pattern")

/-- frame↔motor candidates (both mount-pattern strings present). -/
def frameMotorCands (parts : List PartRec) : List (PartRec × PartRec) :=
  List.product
    ((typeSlice parts "frame").filter (fun p => p.frame_motor_mount_pattern_eff.isSome))
    ((typeSlice parts "motor").filter (fun p => p.motor_mount_pattern_eff.isSome))

/-- frame↔motor predicate. -/
def evalFrameMotor (f m : PartRec) : String × String :=
  if mountsOverlap f.frame_motor_mount_pattern_eff m.motor_mount_pattern_eff then
    ("PASS", "Mount pattern overlaps")
  else ("FAIL", "No common mount pattern")

/-- esc↔fc candidates (both mount-pattern strings present). -/
def escFcCands (parts : List PartRec) : List (PartRec × PartRec) :=
  List.product
    ((typeSlice parts "esc").filter (fun p => p.esc_mount_pattern_eff.isSome))
    ((typeSlice parts "fc").filter (fun p => p.fc_mount_pattern_eff.isSome))

/-- esc↔fc predicate. -/
def evalEscFc (e c : PartRec) : String × String :=
  if mountsOverlap e.esc_mount_pattern_eff c.fc_mount_pattern_eff then
    ("PASS", "Form factor matches")
  else ("FAIL", "No common mount pattern")

/-- battery↔esc candidates: inner join of batteries (non-null
`battery_connector_eff`) with ESCs (non-null `esc_batt_connector_eff`) on
connector equality. -/
def batteryEscCands (parts : List PartRec) : List (PartRec × PartRec) :=
  joinOn
    ((typeSlice parts "battery").filter (fun p => p.battery_connector_eff.isSome))
    ((typeSlice parts "esc").filter (fun p => p.esc_batt_connector_eff.isSome))
    (fun p => p.battery_connector_eff) (fun p => p.esc_batt_connector_eff)

/-- battery↔esc predicate: connector matched; refine with cells when the
battery cell count and both ESC cell bounds are known. -/
def evalBatteryEsc (b e : PartRec) : String × String :=
  match b.cell_count, e.esc_cells_min, e.esc_cells_max with
  | some c, some lo, some hi =>
    if lo ≤ c ∧ c ≤ hi then ("PASS", "Connector + cells OK")
    else ("FAIL", "Cells out of ESC range")
  | _, _, _ => ("PASS", "Connector matched")

/-- esc↔motor candidates: the full cross-product of the esc and motor
slices (no dropna). -/
def escMotorCands (parts : List PartRec) : List (PartRec × PartRec) :=
  List.product (typeSlice parts "esc") (typeSlice parts "motor")

/-- `_eval_basic`: FAIL when the cell ranges are known-disjoint, else PASS
on sufficient current and/or overlapping cells, else WARN. -/
def evalEscMotorBasic (e m : PartRec) : String × String :=
  let curOk : Bool :=
    match e.esc_continuous_current_a, m.max_current_a with
    | some ce, some cm => ce ≥ cm
    | _, _ => false
  let cellsOk := sOverlap e.esc_cells_min e.esc_cells_max m.cells_min m.cells_max
  if cellsOk = some false then ("FAIL", "Cell ranges do not overlap")
  else if curOk then
    ("PASS", "current OK" ++ (if cellsOk = some true then " & cells overlap" else ""))
  else if cellsOk = some true then ("PASS", "cells overlap (current unknown)")
  else ("WARN", "insufficient data")

/-- `_eval_head`: FAIL on missing current ratings, FAIL on disjoint or
missing cell ranges, else PASS iff the ESC continuous current is at least
`headroom ×` the motor max current. -/
def evalHead (headroom : ℚ) (e m : PartRec) : String × String :=
  match e.esc_continuous_current_a, m.max_current_a with
  | some ce, some cm =>
    let cellsOk := sOverlap e.esc_cells_min e.esc_cells_max m.cells_min m.cells_max
    if cellsOk = some false then ("FAIL", "Cell ranges do not overlap")
    else if cellsOk = none then ("FAIL", "missing cell ranges")
    else if ce ≥ headroom * cm then
      ("PASS", "current ≥ " ++ fmt1 headroom ++ "× & cells overlap")
    else ("FAIL", "current < " ++ fmt1 headroom ++ "× & cells overlap")
  | _, _ => ("FAIL", "missing current rating(s)")

/-- Lowercased/stripped system string, the vtx↔camera join key. -/
def sysKey (s : String) : String :=
  String.mk ((pyStrip s.data).map lowChar)

/-- vtx↔camera candidates: inner join on the lowercased/stripped system
string; both sides drop rows with a null system. -/
def vtxCameraCands (parts : List PartRec) : List (PartRec × PartRec) :=
  joinOn
    ((typeSlice parts "vtx").filter (fun p => p.vtx_system.isSome))
    ((typeSlice parts "camera").filter (fun p => p.camera_system.isSome))
    (fun p => p.vtx_system.map sysKey) (fun p => p.camera_system.map sysKey)

/-- The antenna gate of the vtx↔antenna rule: `antenna_use == "fpv"`
(lowercased; NaN stringifies to a non-"fpv" text) or band within
[5.4, 6.2] GHz (NaN `between` is false). -/
def antGate (a : PartRec) : Bool :=
  (match a.antenna_use with
   | some u => String.mk (u.data.map lowChar) = "fpv"
   | none => false) ||
  (match a.antenna_band_ghz with
   | some b => 27/5 ≤ b ∧ b ≤ 31/5
   | none => false)

/-- The vtx side join key: `vtx_ant_conn_eff.combine_first(vtx_ant_conn)` —
the canonical connector with fallback to the raw text. -/
def vtxConnKey (p : PartRec) : Option String :=
  p.vtx_ant_conn_eff.or p.vtx_ant_conn

/-- The antenna side join key: `antenna_conn_eff.combine_first(antenna_conn)`. -/
def antConnKey (p : PartRec) : Option String :=
  p.antenna_conn_eff.or p.antenna_conn

/-- vtx↔antenna candidates: all vtxs joined with gated antennas on the
fallback connector key (null keys match null keys, as in pandas merge). -/
def vtxAntennaCands (parts : List PartRec) : List (PartRec × PartRec) :=
  joinOn (typeSlice parts "vtx") ((typeSlice parts "antenna").filter antGate)
    vtxConnKey antConnKey

/-- fc↔vtx VBAT candidates: both S ranges fully present. -/
def fcVtxVbatCands (parts : List PartRec) : List (PartRec × PartRec) :=
  List.product
    ((typeSlice parts "fc").filter
      (fun p => p.fc_vbat_min_s.isSome && p.fc_vbat_max_s.isSome))
    ((typeSlice parts "vtx").filter
      (fun p => p.vtx_input_s_min.isSome && p.vtx_input_s_max.isSome))

/-- fc↔vtx VBAT predicate: `np.where(ok == True, PASS, FAIL)`. -/
def evalFcVtxVbat (f v : PartRec) : String × String :=
  if sOverlap f.fc_vbat_min_s f.fc_vbat_max_s v.vtx_input_s_min v.vtx_input_s_max
      = some true then
    ("PASS", "VBAT ranges overlap")
  else ("FAIL", "VBAT ranges do not overlap")

/-- Rail candidates (`_rail`): FCs with the BEC column × VTXs with the
current column, for one voltage rail. -/
def railCands (parts : List PartRec) (fcCol vtxCol : PartRec → Option ℚ) :
    List (PartRec × PartRec) :=
  List.product
    ((typeSlice parts "fc").filter (fun p => (fcCol p).isSome))
    ((typeSlice parts "vtx").filter (fun p => (vtxCol p).isSome))

/-- Rail predicate (`_rail`): PASS iff FC BEC current ≥ VTX draw. -/
def evalRail (fcCol vtxCol : PartRec → Option ℚ) (v : Nat) (f x : PartRec) :
    String × String :=
  match fcCol f, vtxCol x with
  | some a, some b =>
    if a ≥ b then ("PASS", "FC " ++ toString v ++ "V BEC ≥ VTX current")
    else ("FAIL", "FC " ++ toString v ++ "V BEC < VTX current")
  | _, _ => ("FAIL", "FC " ++ toString v ++ "V BEC < VTX current")

/-- fc↔camera 5V candidates. -/
def fcCam5vCands (parts : List PartRec) : List (PartRec × PartRec) :=
  List.product
    ((typeSlice parts "fc").filter (fun p => p.fc_bec_5v_a.isSome))
    ((typeSlice parts "camera").filter (fun p => p.camera_5v_current_a.isSome))

/-- fc↔camera 5V predicate. -/
def evalFcCam5v (f c : PartRec) : String × String :=
  match f.fc_bec_5v_a, c.camera_5v_current_a with
  | some a, some b =>
    if a ≥ b then ("PASS", "FC 5V BEC ≥ camera current")
    else ("FAIL", "FC 5V BEC < camera current")
  | _, _ => ("FAIL", "FC 5V BEC < camera current")

/-- `_cam_accepts` candidates: FCs with the rail BEC column × cameras with
a full accepted-voltage range. -/
def fcCamAcceptCands (parts : List PartRec) (fcCol : PartRec → Option ℚ) :
    List (PartRec × PartRec) :=
  List.product
    ((typeSlice parts "fc").filter (fun p => (fcCol p).isSome))
    ((typeSlice parts "camera").filter
      (fun p => p.camera_input_v_min.isSome && p.camera_input_v_max.isSome))

/-- `_cam_accepts` predicate: PASS iff the camera's accepted voltage range
contains the rail voltage (inclusive). -/
def evalCamAccepts (v : Nat) (_f c : PartRec) : String × String :=
  match c.camera_input_v_min, c.camera_input_v_max with
  | some lo, some hi =>
    if lo ≤ (v : ℚ) ∧ (v : ℚ) ≤ hi then
      ("PASS", "Camera accepts " ++ toString v ++ "V")
    else ("FAIL", "Camera " ++ toString v ++ "V out of range")
  | _, _ => ("FAIL", "Camera " ++ toString v ++ "V out of range")

/-- The coarse band bucket of the rx↔antenna rule (`bucket`). -/
def bandBucket (x : Option ℚ) : Option String :=
  match x with
  | none => none
  | some x =>
    if |x - 29/5| < 2/5 then some "5.8"
    else if |x - 12/5| < 3/10 then some "2.4"
    else if 7/10 ≤ x ∧ x ≤ 1 then some "0.9"
    else none

/-- rx↔antenna candidates: rxs and antennas with raw connector and band
present, joined on (canonical connector, band bucket); both key components
may be null and null matches null as in pandas merge. -/
def rxAntennaCands (parts : List PartRec) : List (PartRec × PartRec) :=
  joinOn2
    ((typeSlice parts "rx").filter
      (fun p => p.rx_ant_conn.isSome && p.rx_band_ghz.isSome))
    ((typeSlice parts "antenna").filter
      (fun p => p.antenna_conn.isSome && p.antenna_band_ghz.isSome))
    (fun p => (canonConnector p.rx_ant_conn, bandBucket p.rx_band_ghz))
    (fun p => (canonConnector p.antenna_conn, bandBucket p.antenna_band_ghz))

/-- pigtail↔esc candidates: join on the canonical power connector. -/
def pigtailEscCands (parts : List PartRec) : List (PartRec × PartRec) :=
  joinOn
    ((typeSlice parts "pigtail").filter (fun p => p.pigtail_connector_eff.isSome))
    ((typeSlice parts "esc").filter (fun p => p.esc_batt_connector_eff.isSome))
    (fun p => p.pigtail_connector_eff) (fun p => p.esc_batt_connector_eff)

/-- battery↔pigtail candidates: pigtails joined with batteries on the
canonical power connector (pigtail is the left side). -/
def batteryPigtailCands (parts : List PartRec) : List (PartRec × PartRec) :=
  joinOn
    ((typeSlice parts "pigtail").filter (fun p => p.pigtail_connector_eff.isSome))
    ((typeSlice parts "battery").filter (fun p => p.battery_connector_eff.isSome))
    (fun p => p.pigtail_connector_eff) (fun p => p.battery_connector_eff)

/-- capacitor↔esc candidates: capacitors with a voltage rating × ESCs with
a max cell count. -/
def capEscCands (parts : List PartRec) : List (PartRec × PartRec) :=
  List.product
    ((typeSlice parts "capacitor").filter (fun p => p.capacitor_voltage_v.isSome))
    ((typeSlice parts "esc").filter (fun p => p.esc_cells_max.isSome))

/-- capacitor↔esc predicate: required voltage is
`esc_cells_max × 4.2 × 1.05`; PASS iff the cap rating reaches it. -/
def evalCapEsc (c e : PartRec) : String × String :=
  match c.capacitor_voltage_v, e.esc_cells_max with
  | some cv, some cm =>
    if cv ≥ cm * (21/5) * (21/20) then ("PASS", "Cap voltage ≥ VBAT max")
    else ("FAIL", "Cap voltage < VBAT max")
  | _, _ => ("FAIL", "Cap voltage < VBAT max")

/-- motor↔prop hub candidates: all motors × props with a non-null
`prop_hub_eff` (props with an unresolved hub are dropped). -/
def motorPropHubCands (parts : List PartRec) : List (PartRec × PartRec) :=
  List.product (typeSlice parts "motor")
    ((typeSlice parts "prop").filter (fun p => p.prop_hub_eff.isSome))

/-- motor↔prop hub predicate: PASS when both hub classes resolve equal,
WARN when either is unresolved, FAIL when both resolve but differ. -/
def evalMotorPropHub (m p : PartRec) : String × String :=
  let mh := motorHubFromShaft m.shaft_mm
  let ph := p.prop_hub_eff
  if mh.isSome ∧ ph.isSome ∧ mh = ph then ("PASS", "Hub type matches")
  else if mh = none ∨ ph = none then ("WARN", "Insufficient hub/shaft data")
  else ("FAIL", "Hub type mismatch")

/-- `build_compat`: the fixed set of compatibility tables, keyed by their
`Compat_*` names, in the insertion order of `engine.py`.  In the source an
empty slice yields an empty DataFrame carrying the same column list as the
nonempty branch, so every table's schema is a constant. -/
def buildCompat (parts : List PartRec) (headroom : ℚ) : List (String × DF) :=
  [("Compat_frame_prop",
    ruleTable
      ["frame_sku", "frame_name", "prop_sku", "prop_name", "frame_max_prop_in",
       "prop_diameter_in", "status", "reason"]
      (framePropCands parts)
      (fun f p => [Cell.str f.sku, Cell.str f.name, Cell.str p.sku, Cell.str p.name,
        optQ f.frame_max_prop_in, optQ p.prop_diameter_in])
      evalFrameProp),
   ("Compat_frame_fc",
    ruleTable ["frame_sku", "frame_name", "fc_sku", "fc_name", "status", "reason"]
      (frameFcCands parts)
      (fun f c => [Cell.str f.sku, Cell.str f.name, Cell.str c.sku, Cell.str c.name])
      evalFrameFc),
   ("Compat_frame_motor",
    ruleTable ["frame_sku", "frame_name", "motor_sku", "motor_name", "status", "reason"]
      (frameMotorCands parts)
      (fun f m => [Cell.str f.sku, Cell.str f.name, Cell.str m.sku, Cell.str m.name])
      evalFrameMotor),
   ("Compat_esc_fc",
    ruleTable ["esc_sku", "esc_name", "fc_sku", "fc_name", "status", "reason"]
      (escFcCands parts)
      (fun e c => [Cell.str e.sku, Cell.str e.name, Cell.str c.sku, Cell.str c.name])
      evalEscFc),
   ("Compat_battery_esc",
    ruleTable
      ["battery_sku", "battery_name", "esc_sku", "esc_name", "battery_connector_eff",
       "esc_cells_min", "esc_cells_max", "cell_count", "status", "reason"]
      (batteryEscCands parts)
      (fun b e => [Cell.str b.sku, Cell.str b.name, Cell.str e.sku, Cell.str e.name,
        optS b.battery_connector_eff, optQ e.esc_cells_min, optQ e.esc_cells_max,
        optQ b.cell_count])
      evalBatteryEsc),
   ("Compat_esc_motor",
    ruleTable
      ["esc_sku", "esc_name", "motor_sku", "motor_name", "esc_continuous_current_a",
       "max_current_a", "esc_cells_min", "esc_cells_max", "cells_min", "cells_max",
       "status", "reason"]
      (escMotorCands parts)
      (fun e m => [Cell.str e.sku, Cell.str e.name, Cell.str m.sku, Cell.str m.name,
        optQ e.esc_continuous_current_a, optQ m.max_current_a, optQ e.esc_cells_min,
        optQ e.esc_cells_max, optQ m.cells_min, optQ m.cells_max])
      evalEscMotorBasic),
   ("Compat_esc_motor_headroom",
    ruleTable
      ["esc_sku", "esc_name", "motor_sku", "motor_name", "esc_continuous_current_a",
       "max_current_a", "esc_cells_min", "esc_cells_max", "cells_min", "cells_max",
       "status", "reason"]
      (escMotorCands parts)
      (fun e m => [Cell.str e.sku, Cell.str e.name, Cell.str m.sku, Cell.str m.name,
        optQ e.esc_continuous_current_a, optQ m.max_current_a, optQ e.esc_cells_min,
        optQ e.esc_cells_max, optQ m.cells_min, optQ m.cells_max])
      (evalHead headroom)),
   ("Compat_vtx_camera",
    ruleTable
      ["vtx_sku", "vtx_name", "camera_sku", "camera_name", "sys", "status", "reason"]
      (vtxCameraCands parts)
      (fun v c => [Cell.str v.sku, Cell.str v.name, Cell.str c.sku, Cell.str c.name,
        optS (v.vtx_system.map sysKey)])
      (fun _ _ => ("PASS", "Systems match"))),
   ("Compat_vtx_antenna",
    ruleTable
      ["vtx_sku", "vtx_name", "antenna_sku", "antenna_name", "conn", "status", "reason"]
      (vtxAntennaCands parts)
      (fun v a => [Cell.str v.sku, Cell.str v.name, Cell.str a.sku, Cell.str a.name,
        optS (vtxConnKey v)])
      (fun _ _ => ("PASS", "RF connector matches"))),
   ("Compat_fc_vtx_vbat",
    ruleTable
      ["fc_sku", "fc_name", "vtx_sku", "vtx_name", "fc_vbat_min_s", "fc_vbat_max_s",
       "vtx_input_s_min", "vtx_input_s_max", "status", "reason"]
      (fcVtxVbatCands parts)
      (fun f v => [Cell.str f.sku, Cell.str f.name, Cell.str v.sku, Cell.str v.name,
        optQ f.fc_vbat_min_s, optQ f.fc_vbat_max_s, optQ v.vtx_input_s_min,
        optQ v.vtx_input_s_max])
      evalFcVtxVbat),
   ("Compat_fc_vtx_5v",
    ruleTable
      ["fc_sku", "fc_name", "vtx_sku", "vtx_name", "fc_bec_5v_a", "vtx_5v_current_a",
       "status", "reason"]
      (railCands parts (fun p => p.fc_bec_5v_a) (fun p => p.vtx_5v_current_a))
      (fun f v => [Cell.str f.sku, Cell.str f.name, Cell.str v.sku, Cell.str v.name,
        optQ f.fc_bec_5v_a, optQ v.vtx_5v_current_a])
      (evalRail (fun p => p.fc_bec_5v_a) (fun p => p.vtx_5v_current_a) 5)),
   ("Compat_fc_vtx_9v",
    ruleTable
      ["fc_sku", "fc_name", "vtx_sku", "vtx_name", "fc_bec_9v_a", "vtx_9v_current_a",
       "status", "reason"]
      (railCands parts (fun p => p.fc_bec_9v_a) (fun p => p.vtx_9v_current_a))
      (fun f v => [Cell.str f.sku, Cell.str f.name, Cell.str v.sku, Cell.str v.name,
        optQ f.fc_bec_9v_a, optQ v.vtx_9v_current_a])
      (evalRail (fun p => p.fc_bec_9v_a) (fun p => p.vtx_9v_current_a) 9)),
   ("Compat_fc_vtx_10v",
    ruleTable
      ["fc_sku", "fc_name", "vtx_sku", "vtx_name", "fc_bec_10v_a", "vtx_10v_current_a",
       "status", "reason"]
      (railCands parts (fun p => p.fc_bec_10v_a) (fun p => p.vtx_10v_current_a))
      (fun f v => [Cell.str f.sku, Cell.str f.name, Cell.str v.sku, Cell.str v.name,
        optQ f.fc_bec_10v_a, optQ v.vtx_10v_current_a])
      (evalRail (fun p => p.fc_bec_10v_a) (fun p => p.vtx_10v_current_a) 10)),
   ("Compat_fc_vtx_12v",
    ruleTable
      ["fc_sku", "fc_name", "vtx_sku", "vtx_name", "fc_bec_12v_a", "vtx_12v_current_a",
       "status", "reason"]
      (railCands parts (fun p => p.fc_bec_12v_a) (fun p => p.vtx_12v_current_a))
      (fun f v => [Cell.str f.sku, Cell.str f.name, Cell.str v.sku, Cell.str v.name,
        optQ f.fc_bec_12v_a, optQ v.vtx_12v_current_a])
      (evalRail (fun p => p.fc_bec_12v_a) (fun p => p.vtx_12v_current_a) 12)),
   ("Compat_fc_cam_5v",
    ruleTable
      ["fc_sku", "fc_name", "camera_sku", "camera_name", "fc_bec_5v_a",
       "camera_5v_current_a", "status", "reason"]
      (fcCam5vCands parts)
      (fun f c => [Cell.str f.sku, Cell.str f.name, Cell.str c.sku, Cell.str c.name,
        optQ f.fc_bec_5v_a, optQ c.camera_5v_current_a])
      evalFcCam5v),
   ("Compat_fc_cam_10v",
    ruleTable
      ["fc_sku", "fc_name", "camera_sku", "camera_name", "camera_input_v_min",
       "camera_input_v_max", "status", "reason"]
      (fcCamAcceptCands parts (fun p => p.fc_bec_10v_a))
      (fun f c => [Cell.str f.sku, Cell.str f.name, Cell.str c.sku, Cell.str c.name,
        optQ c.camera_input_v_min, optQ c.camera_input_v_max])
      (evalCamAccepts 10)),
   ("Compat_fc_cam_12v",
    ruleTable
      ["fc_sku", "fc_name", "camera_sku", "camera_name", "camera_input_v_min",
       "camera_input_v_max", "status", "reason"]
      (fcCamAcceptCands parts (fun p => p.fc_bec_12v_a))
      (fun f c => [Cell.str f.sku, Cell.str f.name, Cell.str c.sku, Cell.str c.name,
        optQ c.camera_input_v_min, optQ c.camera_input_v_max])
      (evalCamAccepts 12)),
   ("Compat_rx_antenna",
    ruleTable
      ["rx_sku", "rx_name", "antenna_sku", "antenna_name", "conn", "bb", "status",
       "reason"]
      (rxAntennaCands parts)
      (fun r a => [Cell.str r.sku, Cell.str r.name, Cell.str a.sku, Cell.str a.name,
        optS (canonConnector r.rx_ant_conn), optS (bandBucket r.rx_band_ghz)])
      (fun _ _ => ("PASS", "Connector + band"))),
   ("Compat_pigtail_esc",
    ruleTable
      ["pigtail_sku", "pigtail_name", "esc_sku", "esc_name", "pigtail_connector_eff",
       "status", "reason"]
      (pigtailEscCands parts)
      (fun g e => [Cell.str g.sku, Cell.str g.name, Cell.str e.sku, Cell.str e.name,
        optS g.pigtail_connector_eff])
      (fun _ _ => ("PASS", "Connector matched"))),
   ("Compat_battery_pigtail",
    ruleTable
      ["pigtail_sku", "pigtail_name", "battery_sku", "battery_name",
       "pigtail_connector_eff", "status", "reason"]
      (batteryPigtailCands parts)
      (fun g b => [Cell.str g.sku, Cell.str g.name, Cell.str b.sku, Cell.str b.name,
        optS g.pigtail_connector_eff])
      (fun _ _ => ("PASS", "Connector matched"))),
   ("Compat_cap_esc",
    ruleTable
      ["capacitor_sku", "capacitor_name", "esc_sku", "esc_name", "capacitor_voltage_v",
       "esc_vmax", "status", "reason"]
      (capEscCands parts)
      (fun c e => [Cell.str c.sku, Cell.str c.name, Cell.str e.sku, Cell.str e.name,
        optQ c.capacitor_voltage_v, optQ (e.esc_cells_max.map (fun x => x * (21/5)))])
      evalCapEsc),
   ("Compat_motor_prop_hub",
    ruleTable
      ["motor_sku", "motor_name", "prop_sku", "prop_name", "shaft_mm", "motor_hub_eff",
       "prop_hub_eff", "status", "reason"]
      (motorPropHubCands parts)
      (fun m p => [Cell.str m.sku, Cell.str m.name, Cell.str p.sku, Cell.str p.name,
        optQ m.shaft_mm, optS (motorHubFromShaft m.shaft_mm), optS p.prop_hub_eff])
      evalMotorPropHub)]

/-- Look a table up by its key (empty table when the key is absent). -/
def findTable (res : List (String × DF)) (k : String) : DF :=
  (((res.find? (fun kdf => kdf.1 = k)).map (fun kdf => kdf.2))).getD ⟨[], []⟩

/-- One row of the summary DataFrame (`pair`, `pass`, `fail`, `unknown`). -/
structure SumRow where
  pair : String
  pass : Nat
  fail : Nat
  unknown : Nat
deriving DecidableEq, Repr

/-- `PASS_VALUES` from `schema.py`. -/
def passValues : List String := ["PASS", "OK", "TRUE", "YES", "1"]

/-- Model of Python `str()` of a cell (`astype(str)`); NaN stringifies to
`"nan"`.  The numeric rendering is schematic — summaries only inspect
string-valued status cells. -/
def cellToStr : Cell → String
  | Cell.str s => s
  | Cell.num q => toString q
  | Cell.null => "nan"

/-- The index of the `status` column, when present. -/
def statusIdx (df : DF) : Option Nat :=
  df.cols.findIdx? (fun c => c = "status")

/-- The status column as uppercased strings
(`df["status"].astype(str).str.upper()`), when the column exists. -/
def statusCol (df : DF) : Option (List String) :=
  match statusIdx df with
  | none => none
  | some i =>
    some (df.rows.map (fun r => String.mk ((cellToStr (r.getD i Cell.null)).data.map upChar)))

/-- The count row of `summarize` for one keyed table: a `None` or empty
table counts 0/0/0, a table without a `status` column counts all rows
unknown, otherwise `pass` counts statuses in `PASS_VALUES`, `fail` counts
`"FAIL"`, and `unknown` counts the rest. -/
def sumRowOf (kdf : String × Option DF) : SumRow :=
  match kdf.2 with
  | none => { pair := kdf.1, pass := 0, fail := 0, unknown := 0 }
  | some df =>
    if df.rows.isEmpty then { pair := kdf.1, pass := 0, fail := 0, unknown := 0 }
    else
      match statusCol df with
      | none => { pair := kdf.1, pass := 0, fail := 0, unknown := df.rows.length }
      | some s =>
        { pair := kdf.1,
          pass := (s.filter (fun x => passValues.contains x)).length,
          fail := (s.filter (fun x => x = "FAIL")).length,
          unknown :=
            (s.filter (fun x => ¬ passValues.contains x ∧ x ≠ "FAIL")).length }

/-- `summarize`: one count row per table, sorted by the pair key
(pandas `sort_values(by=["pair"])`, modelled as an insertion sort). -/
def summarize (compat : List (String × Option DF)) : List SumRow :=
  List.insertionSort (fun a b => a.pair ≤ b.pair) (compat.map sumRowOf)

/-- A row is well-statused when its last two cells are strings and the
second-to-last (the `status` column) is PASS, FAIL or WARN. -/
def statusOkRow (r : List Cell) : Bool :=
  match r.reverse with
  | Cell.str _ :: Cell.str st :: _ => st = "PASS" || st = "FAIL" || st = "WARN"
  | _ => false

theorem statusOkRow_append (pre : List Cell) (st rs : String)
    (h : st = "PASS" ∨ st = "FAIL" ∨ st = "WARN") :
    statusOkRow (pre ++ [Cell.str st, Cell.str rs]) = true := by
  unfold statusOkRow
  rw [show (pre ++ [Cell.str st, Cell.str rs]).reverse
      = Cell.str rs :: Cell.str st :: pre.reverse by simp]
  rcases h with h | h | h <;> subst h <;> rfl

theorem ruleTable_statusOk (cols : List String) (cands : List (PartRec × PartRec))
    (fields : PartRec → PartRec → List Cell) (ev : PartRec → PartRec → String × String)
    (h : ∀ a b, (ev a b).1 = "PASS" ∨ (ev a b).1 = "FAIL" ∨ (ev a b).1 = "WARN") :
    ((ruleTable cols cands fields ev).rows.all statusOkRow) = true := by
  unfold ruleTable
  simp only [List.all_eq_true, List.mem_map]
  rintro row ⟨c, _, rfl⟩
  exact statusOkRow_append _ _ _ (h c.1 c.2)

theorem evalFrameProp_status (a b : PartRec) :
    (evalFrameProp a b).1 = "PASS" ∨ (evalFrameProp a b).1 = "FAIL" ∨
    (evalFrameProp a b).1 = "WARN" := by
  unfold evalFrameProp
  repeat' split
  all_goals simp

theorem evalFrameFc_status (a b : PartRec) :
    (evalFrameFc a b).1 = "PASS" ∨ (evalFrameFc a b).1 = "FAIL" ∨
    (evalFrameFc a b).1 = "WARN" := by
  unfold evalFrameFc
  repeat' split
  all_goals simp

theorem evalFrameMotor_status (a b : PartRec) :
    (evalFrameMotor a b).1 = "PASS" ∨ (evalFrameMotor a b).1 = "FAIL" ∨
    (evalFrameMotor a b).1 = "WARN" := by
  unfold evalFrameMotor
  repeat' split
  all_goals simp

theorem evalEscFc_status (a b : PartRec) :
    (evalEscFc a b).1 = "PASS" ∨ (evalEscFc a b).1 = "FAIL" ∨
    (evalEscFc a b).1 = "WARN" := by
  unfold evalEscFc
  repeat' split
  all_goals simp

theorem evalBatteryEsc_status (a b : PartRec) :
    (evalBatteryEsc a b).1 = "PASS" ∨ (evalBatteryEsc a b).1 = "FAIL" ∨
    (evalBatteryEsc a b).1 = "WARN" := by
  unfold evalBatteryEsc
  repeat' split
  all_goals simp

theorem evalEscMotorBasic_status (a b : PartRec) :
    (evalEscMotorBasic a b).1 = "PASS" ∨ (evalEscMotorBasic a b).1 = "FAIL" ∨
    (evalEscMotorBasic a b).1 = "WARN" := by
  unfold evalEscMotorBasic
  dsimp only
  repeat' split
  all_goals simp

theorem evalHead_status (h : ℚ) (a b : PartRec) :
    (evalHead h a b).1 = "PASS" ∨ (evalHead h a b).1 = "FAIL" ∨
    (evalHead h a b).1 = "WARN" := by
  unfold evalHead
  dsimp only
  repeat' split
  all_goals simp

theorem evalFcVtxVbat_status (a b : PartRec) :
    (evalFcVtxVbat a b).1 = "PASS" ∨ (evalFcVtxVbat a b).1 = "FAIL" ∨
    (evalFcVtxVbat a b).1 = "WARN" := by
  unfold evalFcVtxVbat
  repeat' split
  all_goals simp

theorem evalRail_status (fcCol vtxCol : PartRec → Option ℚ) (v : Nat) (a b : PartRec) :
    (evalRail fcCol vtxCol v a b).1 = "PASS" ∨ (evalRail fcCol vtxCol v a b).1 = "FAIL" ∨
    (evalRail fcCol vtxCol v a b).1 = "WARN" := by
  unfold evalRail
  repeat' split
  all_goals simp

theorem evalFcCam5v_status (a b : PartRec) :
    (evalFcCam5v a b).1 = "PASS" ∨ (evalFcCam5v a b).1 = "FAIL" ∨
    (evalFcCam5v a b).1 = "WARN" := by
  unfold evalFcCam5v
  repeat' split
  all_goals simp

theorem evalCamAccepts_status (v : Nat) (a b : PartRec) :
    (evalCamAccepts v a b).1 = "PASS" ∨ (evalCamAccepts v a b).1 = "FAIL" ∨
    (evalCamAccepts v a b).1 = "WARN" := by
  unfold evalCamAccepts
  repeat' split
  all_goals simp

theorem evalCapEsc_status (a b : PartRec) :
    (evalCapEsc a b).1 = "PASS" ∨ (evalCapEsc a b).1 = "FAIL" ∨
    (evalCapEsc a b).1 = "WARN" := by
  unfold evalCapEsc
  repeat' split
  all_goals simp

theorem evalMotorPropHub_status (a b : PartRec) :
    (evalMotorPropHub a b).1 = "PASS" ∨ (evalMotorPropHub a b).1 = "FAIL" ∨
    (evalMotorPropHub a b).1 = "WARN" := by
  unfold evalMotorPropHub
  dsimp only
  repeat' split
  all_goals simp

/-- C1: totality of rule evaluation.  `buildCompat` is a total function of
the parts table (the embedding compiles with no partiality), and every row
of every result table carries a status in {PASS, FAIL, WARN} in the
second-to-last cell — records a rule cannot score are excluded by the
candidate selection, never given an out-of-range status. -/
theorem buildCompat_status_total (parts : List PartRec) (headroom : ℚ) :
    ((buildCompat parts headroom).all fun kdf => kdf.2.rows.all statusOkRow) = true := by
  unfold buildCompat
  simp only [List.all_cons, List.all_nil, Bool.and_eq_true, and_true]
  exact ⟨ruleTable_statusOk _ _ _ _ evalFrameProp_status,
    ruleTable_statusOk _ _ _ _ evalFrameFc_status,
    ruleTable_statusOk _ _ _ _ evalFrameMotor_status,
    ruleTable_statusOk _ _ _ _ evalEscFc_status,
    ruleTable_statusOk _ _ _ _ evalBatteryEsc_status,
    ruleTable_statusOk _ _ _ _ evalEscMotorBasic_status,
    ruleTable_statusOk _ _ _ _ (evalHead_status headroom),
    ruleTable_statusOk _ _ _ _ (fun _ _ => Or.inl rfl),
    ruleTable_statusOk _ _ _ _ (fun _ _ => Or.inl rfl),
    ruleTable_statusOk _ _ _ _ evalFcVtxVbat_status,
    ruleTable_statusOk _ _ _ _ (evalRail_status _ _ 5),
    ruleTable_statusOk _ _ _ _ (evalRail_status _ _ 9),
    ruleTable_statusOk _ _ _ _ (evalRail_status _ _ 10),
    ruleTable_statusOk _ _ _ _ (evalRail_status _ _ 12),
    ruleTable_statusOk _ _ _ _ evalFcCam5v_status,
    ruleTable_statusOk _ _ _ _ (evalCamAccepts_status 10),
    ruleTable_statusOk _ _ _ _ (evalCamAccepts_status 12),
    ruleTable_statusOk _ _ _ _ (fun _ _ => Or.inl rfl),
    ruleTable_statusOk _ _ _ _ (fun _ _ => Or.inl rfl),
    ruleTable_statusOk _ _ _ _ (fun _ _ => Or.inl rfl),
    ruleTable_statusOk _ _ _ _ evalCapEsc_status,
    ruleTable_statusOk _ _ _ _ evalMotorPropHub_status⟩

/-- Are the last two column names `status`, `reason`? -/
def lastTwoStatusReason (l : List String) : Bool :=
  match l.reverse with
  | "reason" :: "status" :: _ => true
  | _ => false

/-- C2: schema completeness.  For every input table (zero records
included) `buildCompat` returns exactly the fixed pair-type keys, in a
fixed order, and each table carries its documented column list — with
`status` and `reason` as the last two columns — independently of the rows
(an empty slice still yields the key with the full schema). -/
theorem buildCompat_schema (parts : List PartRec) (headroom : ℚ) :
    (buildCompat parts headroom).map (fun kdf => (kdf.1, kdf.2.cols)) =
      [("Compat_frame_prop",
        ["frame_sku", "frame_name", "prop_sku", "prop_name", "frame_max_prop_in",
         "prop_diameter_in", "status", "reason"]),
       ("Compat_frame_fc",
        ["frame_sku", "frame_name", "fc_sku", "fc_name", "status", "reason"]),
       ("Compat_frame_motor",
        ["frame_sku", "frame_name", "motor_sku", "motor_name", "status", "reason"]),
       ("Compat_esc_fc",
        ["esc_sku", "esc_name", "fc_sku", "fc_name", "status", "reason"]),
       ("Compat_battery_esc",
        ["battery_sku", "battery_name", "esc_sku", "esc_name", "battery_connector_eff",
         "esc_cells_min", "esc_cells_max", "cell_count", "status", "reason"]),
       ("Compat_esc_motor",
        ["esc_sku", "esc_name", "motor_sku", "motor_name", "esc_continuous_current_a",
         "max_current_a", "esc_cells_min", "esc_cells_max", "cells_min", "cells_max",
         "status", "reason"]),
       ("Compat_esc_motor_headroom",
        ["esc_sku", "esc_name", "motor_sku", "motor_name", "esc_continuous_current_a",
         "max_current_a", "esc_cells_min", "esc_cells_max", "cells_min", "cells_max",
         "status", "reason"]),
       ("Compat_vtx_camera",
        ["vtx_sku", "vtx_name", "camera_sku", "camera_name", "sys", "status", "reason"]),
       ("Compat_vtx_antenna",
        ["vtx_sku", "vtx_name", "antenna_sku", "antenna_name", "conn", "status",
         "reason"]),
       ("Compat_fc_vtx_vbat",
        ["fc_sku", "fc_name", "vtx_sku", "vtx_name", "fc_vbat_min_s", "fc_vbat_max_s",
         "vtx_input_s_min", "vtx_input_s_max", "status", "reason"]),
       ("Compat_fc_vtx_5v",
        ["fc_sku", "fc_name", "vtx_sku", "vtx_name", "fc_bec_5v_a", "vtx_5v_current_a",
         "status", "reason"]),
       ("Compat_fc_vtx_9v",
        ["fc_sku", "fc_name", "vtx_sku", "vtx_name", "fc_bec_9v_a", "vtx_9v_current_a",
         "status", "reason"]),
       ("Compat_fc_vtx_10v",
        ["fc_sku", "fc_name", "vtx_sku", "vtx_name", "fc_bec_10v_a", "vtx_10v_current_a",
         "status", "reason"]),
       ("Compat_fc_vtx_12v",
        ["fc_sku", "fc_name", "vtx_sku", "vtx_name", "fc_bec_12v_a", "vtx_12v_current_a",
         "status", "reason"]),
       ("Compat_fc_cam_5v",
        ["fc_sku", "fc_name", "camera_sku", "camera_name", "fc_bec_5v_a",
         "camera_5v_current_a", "status", "reason"]),
       ("Compat_fc_cam_10v",
        ["fc_sku", "fc_name", "camera_sku", "camera_name", "camera_input_v_min",
         "camera_input_v_max", "status", "reason"]),
       ("Compat_fc_cam_12v",
        ["fc_sku", "fc_name", "camera_sku", "camera_name", "camera_input_v_min",
         "camera_input_v_max", "status", "reason"]),
       ("Compat_rx_antenna",
        ["rx_sku", "rx_name", "antenna_sku", "antenna_name", "conn", "bb", "status",
         "reason"]),
       ("Compat_pigtail_esc",
        ["pigtail_sku", "pigtail_name", "esc_sku", "esc_name", "pigtail_connector_eff",
         "status", "reason"]),
       ("Compat_battery_pigtail",
        ["pigtail_sku", "pigtail_name", "battery_sku", "battery_name",
         "pigtail_connector_eff", "status", "reason"]),
       ("Compat_cap_esc",
        ["capacitor_sku", "capacitor_name", "esc_sku", "esc_name", "capacitor_voltage_v",
         "esc_vmax", "status", "reason"]),
       ("Compat_motor_prop_hub",
        ["motor_sku", "motor_name", "prop_sku", "prop_name", "shaft_mm",
         "motor_hub_eff", "prop_hub_eff", "status", "reason"])] ∧
    ((buildCompat parts headroom).all fun kdf => lastTwoStatusReason kdf.2.cols) = true := by
  constructor <;> rfl

/-- The esc↔motor headroom verdict as the spec's §4.2 row words it: FAIL
if either current rating is missing; FAIL if the cell ranges are disjoint
or either range has a missing bound; else PASS iff ESC continuous current
≥ headroom × motor max current.  (Spec-side definition, to be compared
with the code-side `evalHead`.) -/
def specHeadStatus (headroom : ℚ) (e m : PartRec) : String :=
  match e.esc_continuous_current_a, m.max_current_a with
  | some ce, some cm =>
    match e.esc_cells_min, e.esc_cells_max, m.cells_min, m.cells_max with
    | some a1, some a2, some b1, some b2 =>
      if max a1 b1 ≤ min a2 b2 then
        if ce ≥ headroom * cm then "PASS" else "FAIL"
      else "FAIL"
    | _, _, _, _ => "FAIL"
  | _, _ => "FAIL"

/-- C3: the esc↔motor headroom rule computes exactly the spec's predicate,
for every candidate pair and every headroom value. -/
theorem evalHead_matches_spec (e m : PartRec) (headroom : ℚ) :
    (evalHead headroom e m).1 = specHeadStatus headroom e m := by
  unfold evalHead specHeadStatus
  rcases e.esc_continuous_current_a with _ | ce <;>
    rcases m.max_current_a with _ | cm <;>
    simp only []
  rcases e.esc_cells_min with _ | a1 <;>
    rcases e.esc_cells_max with _ | a2 <;>
    rcases m.cells_min with _ | b1 <;>
    rcases m.cells_max with _ | b2 <;>
    try (simp [sOverlap]; done)
  by_cases hov : max a1 b1 ≤ min a2 b2
  · have hcell : sOverlap (some a1) (some a2) (some b1) (some b2) = some true := by
      show some (decide (max a1 b1 ≤ min a2 b2)) = some true
      rw [decide_eq_true hov]
    rw [hcell]
    by_cases hge : ce ≥ headroom * cm <;> simp [hov, hge]
  · have hcell : sOverlap (some a1) (some a2) (some b1) (some b2) = some false := by
      show some (decide (max a1 b1 ≤ min a2 b2)) = some false
      rw [decide_eq_false hov]
    rw [hcell]
    simp [hov]

/-- The C4 scenario ESC: 30 A continuous, 4–6S. -/
def escC4 : PartRec :=
  { type := "esc", sku := "ESC30", esc_continuous_current_a := some 30,
    esc_cells_min := some 4, esc_cells_max := some 6 }

/-- The C4 scenario motor: 20 A max, 4–6S. -/
def motC4 : PartRec :=
  { type := "motor", sku := "MOT20", max_current_a := some 20,
    cells_min := some 4, cells_max := some 6 }

/-- C4 counterexample: with `esc_continuous_current_a = 30` and
`max_current_a = 20` (and overlapping cell ranges), headroom 1.3 requires
1.3 × 20 = 26 ≤ 30, so the rule yields PASS — not the FAIL (with
"required = 31") that the claim states. -/
theorem evalHead_c4_counterexample :
    (evalHead (13/10) escC4 motC4).1 = "PASS" ∧
    (evalHead (13/10) escC4 motC4).1 ≠ "FAIL" := by
  decide

/-- C4 amended: with the cell ranges present and overlapping, the rule
yields PASS at headroom 1.2 (required 24 ≤ 30), still PASS at headroom
1.3 (required 26 ≤ 30), and FAIL at headroom 1.6 (required 32 > 30); with
the cell ranges missing it yields FAIL even at headroom 1.2. -/
theorem evalHead_c4_amended :
    (evalHead (6/5) escC4 motC4).1 = "PASS" ∧
    (evalHead (13/10) escC4 motC4).1 = "PASS" ∧
    (evalHead (8/5) escC4 motC4).1 = "FAIL" ∧
    (evalHead (6/5) { type := "esc", esc_continuous_current_a := some 30 }
        { type := "motor", max_current_a := some 20 }).1 = "FAIL" := by
  decide

/-- The C5 counterexample ESC: −13 A "continuous current" (negative
numbers parse like any float), 4–6S. -/
def escC5 : PartRec :=
  { type := "esc", sku := "ESCN", esc_continuous_current_a := some (-13),
    esc_cells_min := some 4, esc_cells_max := some 6 }

/-- The C5 counterexample motor: −10 A max current, 4–6S. -/
def motC5 : PartRec :=
  { type := "motor", sku := "MOTN", max_current_a := some (-10),
    cells_min := some 4, cells_max := some 6 }

/-- C5 counterexample: with a negative motor max current the headroom
comparison reverses — at h1 = 1.2 ≤ h2 = 1.3 the rule PASSes at h2
(−13 ≥ 1.3 × −10 = −13) yet FAILs at h1 (−13 < −12), so PASS at the
larger headroom does not imply PASS at the smaller one. -/
theorem evalHead_c5_counterexample :
    ((6/5 : ℚ) ≤ 13/10) ∧
    (evalHead (13/10) escC5 motC5).1 = "PASS" ∧
    (evalHead (6/5) escC5 motC5).1 = "FAIL" := by
  decide

/-- C5 amended: headroom monotonicity holds whenever the motor max
current is nonnegative — for h1 ≤ h2, PASS at h2 implies PASS at h1. -/
theorem evalHead_c5_amended (e m : PartRec) (h1 h2 cm : ℚ)
    (hm : m.max_current_a = some cm) (hcm : 0 ≤ cm) (hle : h1 ≤ h2)
    (hp : (evalHead h2 e m).1 = "PASS") : (evalHead h1 e m).1 = "PASS" := by
  unfold evalHead at hp ⊢
  rw [hm] at hp ⊢
  cases he : e.esc_continuous_current_a with
  | none =>
    rw [he] at hp
    simp at hp
  | some ce =>
    rw [he] at hp
    dsimp only at hp ⊢
    rcases hov : sOverlap e.esc_cells_min e.esc_cells_max m.cells_min m.cells_max
      with _ | b
    · rw [hov] at hp
      simp at hp
    · rcases b with _ | _
      · rw [hov] at hp
        simp at hp
      · rw [hov] at hp
        simp at hp ⊢
        have hge2 : ce ≥ h2 * cm := by
          by_contra hlt
          simp [hlt] at hp
        have hge1 : ce ≥ h1 * cm :=
          le_trans (mul_le_mul_of_nonneg_right hle hcm) hge2
        simp [hge1]

/-- C5 witness: the amended monotonicity applied at the concrete 30 A /
20 A scenario, h1 = 1.2, h2 = 1.3. -/
theorem evalHead_c5_witness : (evalHead (6/5) escC4 motC4).1 = "PASS" :=
  evalHead_c5_amended escC4 motC4 (6/5) (13/10) 20 (by decide) (by decide)
    (by decide) (by decide)

/-- C6 counterexample: the exact text "rpsma" normalizes to "RPSMA",
which does not contain "RP SMA" but does contain "SMA", so the RF
canonicalizer returns "SMA", not "RP-SMA". -/
theorem canonConnector_c6_counterexample :
    canonConnector (some "rpsma") = some "SMA" ∧
    canonConnector (some "rpsma") ≠ some "RP-SMA" := by
  decide

/-- C6 amended: "XT-60" canonicalizes to "XT60"; a separator-carrying
spelling such as "rp-sma" (or "rp sma", "rp_sma") canonicalizes to
"RP-SMA" with priority over plain "SMA"; the separator-free "rpsma"
canonicalizes to "SMA". -/
theorem canon_c6_amended :
    canonPowerConn (some "XT-60") = some "XT60" ∧
    canonConnector (some "rp-sma") = some "RP-SMA" ∧
    canonConnector (some "rp sma") = some "RP-SMA" ∧
    canonConnector (some "rp_sma") = some "RP-SMA" ∧
    canonConnector (some "rpsma") = some "SMA" := by
  decide

/-- A VTX whose RF-connector text matches no known token. -/
def vtxC7 : PartRec :=
  { type := "vtx", sku := "V1", vtx_ant_conn := some "GLORP" }

/-- An antenna with the same unmatched raw text, gated in by
`antenna_use = "fpv"`. -/
def antC7 : PartRec :=
  { type := "antenna", sku := "A1", antenna_conn := some "GLORP",
    antenna_use := some "fpv" }

/-- C7 counterexample: both records' RF text "GLORP" canonicalizes to
null, yet the vtx↔antenna join falls back to the raw text
(`combine_first`), so the pair still produces one PASS row — the claim's
"contributes zero rows" is false. -/
theorem vtxAntenna_c7_counterexample :
    canonConnector vtxC7.vtx_ant_conn = none ∧
    canonConnector antC7.antenna_conn = none ∧
    (findTable (buildCompat [vtxC7, antC7] (6/5)) "Compat_vtx_antenna").rows.length
      = 1 := by
  decide

/-- C7 amended: a no-match RF connector canonicalizes to null and the
record is excluded from matching any partner whose canonical connector
resolved; but in the rx↔antenna join a null key still matches records
whose canonical connector is likewise null, and in the vtx↔antenna join
the key falls back to the raw text, so rows pairing an unresolved vtx
arise exactly when the antenna's fallback key equals the vtx's raw text. -/
theorem connectorJoins_c7_amended :
    (∀ (parts : List PartRec) (r a : PartRec), (r, a) ∈ rxAntennaCands parts →
      canonConnector r.rx_ant_conn = none → canonConnector a.antenna_conn = none) ∧
    (∀ (parts : List PartRec) (v a : PartRec), (v, a) ∈ vtxAntennaCands parts →
      v.vtx_ant_conn_eff = none →
      a.antenna_conn_eff.or a.antenna_conn = v.vtx_ant_conn) := by
  constructor
  · intro parts r a hmem hr
    unfold rxAntennaCands joinOn2 at hmem
    simp only [List.mem_flatMap, List.mem_map, List.mem_filter,
      decide_eq_true_eq] at hmem
    obtain ⟨x, hx, y, ⟨hy, hkey⟩, hpair⟩ := hmem
    obtain ⟨rfl, rfl⟩ := Prod.mk.injEq .. ▸ hpair
    have h1 := congrArg Prod.fst hkey
    simp only at h1
    rw [h1, hr]
  · intro parts v a hmem hv
    unfold vtxAntennaCands joinOn at hmem
    simp only [List.mem_flatMap, List.mem_map, List.mem_filter,
      decide_eq_true_eq] at hmem
    obtain ⟨x, hx, y, ⟨hy, hkey⟩, hpair⟩ := hmem
    obtain ⟨rfl, rfl⟩ := Prod.mk.injEq .. ▸ hpair
    unfold antConnKey vtxConnKey at hkey
    rw [hv] at hkey
    simpa using hkey

/-- An rx whose RF text matches nothing but whose band bucket is 5.8. -/
def rxC7 : PartRec :=
  { type := "rx", sku := "R1", rx_ant_conn := some "zzz", rx_band_ghz := some (5.8 : ℚ) }

/-- An antenna whose RF text matches nothing, same 5.8 band bucket. -/
def antC7b : PartRec :=
  { type := "antenna", sku := "A2", antenna_conn := some "qqq",
    antenna_band_ghz := some (5.9 : ℚ) }

/-- C7 witness: the amended statement applied to a concrete unresolved
rx–antenna pairing that the null-key join produced. -/
theorem connectorJoins_c7_witness : canonConnector antC7b.antenna_conn = none :=
  connectorJoins_c7_amended.1 [rxC7, antC7b] rxC7 antC7b (by decide) (by decide)

/-- The C8 motor: shaft 5 mm resolves to the M5 hub class. -/
def motC8 : PartRec :=
  { type := "motor", sku := "M1", name := "m", shaft_mm := some 5 }

/-- The C8 prop: no `prop_hub_eff`, so its hub class is unresolved. -/
def propC8 : PartRec :=
  { type := "prop", sku := "P1", name := "p" }

/-- C8 counterexample: one motor and one prop are present, but because
the prop's hub class is unresolved the pair is dropped from the
motor↔prop-hub candidates entirely — the table is empty, where the claim
(full cross-product, WARN on either side unresolved) predicts a WARN
row. -/
theorem motorPropHub_c8_counterexample :
    (typeSlice [motC8, propC8] "motor").length = 1 ∧
    (typeSlice [motC8, propC8] "prop").length = 1 ∧
    propC8.prop_hub_eff = none ∧
    (findTable (buildCompat [motC8, propC8] (6/5)) "Compat_motor_prop_hub").rows
      = [] := by
  decide

/-- C8 amended: the motor↔prop-hub rule evaluates the cross-product of
all motors with those props whose hub class resolved (props with a null
`prop_hub_eff` are excluded); on each candidate it yields PASS iff the
motor hub resolves equal to the prop hub, WARN iff the motor's hub class
is unresolved, FAIL iff the motor hub resolved but differs; in particular
a 3 mm-shaft (dead-zone) motor with an "M5" prop yields WARN with reason
"Insufficient hub/shaft data". -/
theorem motorPropHub_c8_amended :
    (∀ (parts : List PartRec) (m p : PartRec),
      ((m, p) ∈ motorPropHubCands parts ↔
        (m ∈ parts ∧ m.type = "motor") ∧
          (p ∈ parts ∧ p.type = "prop") ∧ p.prop_hub_eff ≠ none)) ∧
    (∀ m p : PartRec,
      ((evalMotorPropHub m p).1 = "PASS" ↔
        motorHubFromShaft m.shaft_mm ≠ none ∧
          motorHubFromShaft m.shaft_mm = p.prop_hub_eff) ∧
      ((evalMotorPropHub m p).1 = "WARN" ↔
        motorHubFromShaft m.shaft_mm = none ∨ p.prop_hub_eff = none) ∧
      ((evalMotorPropHub m p).1 = "FAIL" ↔
        motorHubFromShaft m.shaft_mm ≠ none ∧ p.prop_hub_eff ≠ none ∧
          motorHubFromShaft m.shaft_mm ≠ p.prop_hub_eff)) ∧
    evalMotorPropHub { type := "motor", shaft_mm := some 3 }
        { type := "prop", prop_hub_eff := some "M5" }
      = ("WARN", "Insufficient hub/shaft data") := by
  refine ⟨?_, ?_, by decide⟩
  · intro parts m p
    unfold motorPropHubCands typeSlice
    rw [List.pair_mem_product]
    simp only [List.mem_filter, Option.isSome_iff_ne_none, decide_eq_true_eq]
  · intro m p
    unfold evalMotorPropHub
    dsimp only
    rcases hmh : motorHubFromShaft m.shaft_mm with _ | mh <;>
      rcases hph : p.prop_hub_eff with _ | ph
    · simp
    · simp
    · simp
    · by_cases heq : mh = ph <;> simp [heq]

/-- C9 counterexample: the power-connector canonicalizer is not
idempotent — deleting the hyphen of "-\tX" exposes a leading tab, so the
output "\tX" re-canonicalizes (via `strip`) to "X". -/
theorem canonPowerConn_c9_counterexample :
    canonPowerConn (some "-\tX") = some "\tX" ∧
    canonPowerConn (some "\tX") = some "X" ∧
    canonPowerConn (some "\tX") ≠ some "\tX" := by
  decide

/-- Uppercase images are `upChar` fixed points. -/
theorem upChar_mem_fix : ∀ q ∈ upPairs, upChar q.2 = q.2 := by
  decide

/-- `upChar` is idempotent. -/
theorem upChar_fix (c : Char) : upChar (upChar c) = upChar c := by
  unfold upChar
  cases hf : upPairs.find? (fun p => p.1 = c) with
  | none => rw [hf]
  | some p =>
    have h2 := upChar_mem_fix p (List.mem_of_find?_eq_some hf)
    unfold upChar at h2
    exact h2

/-- Canonical facts about the allowed mount tokens, checked by
computation: they are untouched by the `×`/space/strip/lowercase
normalization, contain no comma, are nonempty, and are not the legacy
aliases. -/
theorem allowedMounts_facts : ∀ t ∈ allowedMounts,
    replaceChar '×' 'x' t = t ∧ removeChar ' ' t = t ∧ ',' ∉ t ∧
    (pyStrip t).map lowChar = t ∧ t ≠ [] ∧ t ≠ "30x30".data ∧
    t ≠ "25x25".data := by
  decide

/-- Members of a `mountStep` result come from the accumulator or the
allowed mount set. -/
theorem mountStep_mem (out : List (List Char)) (t x : List Char)
    (hx : x ∈ mountStep out t) : x ∈ out ∨ x ∈ allowedMounts := by
  unfold mountStep at hx
  dsimp only at hx
  split at hx
  · exact Or.inl hx
  · split at hx
    case isTrue hcond =>
      rcases List.mem_append.mp hx with h | h
      · exact Or.inl h
      · simp only [List.mem_singleton] at h
        subst h
        exact Or.inr hcond.1
    case isFalse hcond => exact Or.inl hx

/-- `mountStep` preserves `Nodup`. -/
theorem mountStep_nodup (out : List (List Char)) (t : List Char)
    (h : out.Nodup) : (mountStep out t).Nodup := by
  unfold mountStep
  dsimp only
  split
  · exact h
  · split
    case isTrue hcond => simp [List.nodup_append, h, hcond.2]
    case isFalse hcond => exact h

/-- `mountStep` on an already-canonical token appends it. -/
theorem mountStep_canonical (out : List (List Char)) (t : List Char)
    (ht : t ∈ allowedMounts) (hout : t ∉ out) : mountStep out t = out ++ [t] := by
  obtain ⟨-, -, -, hlow, hne, h30, h25⟩ := allowedMounts_facts t ht
  have halias : mountAlias t = t := by
    unfold mountAlias
    rw [if_neg h30, if_neg h25]
  unfold mountStep
  dsimp only
  rw [hlow, if_neg hne, halias, if_pos ⟨ht, hout⟩]

/-- Members of a `canonMountFold` result come from the accumulator or the
allowed mount set. -/
theorem canonMountFold_mem (ts : List (List Char)) :
    ∀ out x, x ∈ canonMountFold out ts → x ∈ out ∨ x ∈ allowedMounts := by
  induction ts with
  | nil =>
    intro out x hx
    exact Or.inl hx
  | cons t ts ih =>
    intro out x hx
    rcases ih (mountStep out t) x hx with h | h
    · exact mountStep_mem out t x h
    · exact Or.inr h

/-- `canonMountFold` preserves accumulator `Nodup`. -/
theorem canonMountFold_nodup (ts : List (List Char)) :
    ∀ out, out.Nodup → (canonMountFold out ts).Nodup := by
  induction ts with
  | nil =>
    intro out h
    exact h
  | cons t ts ih =>
    intro out h
    exact ih (mountStep out t) (mountStep_nodup out t h)

/-- Folding an already-canonical token list (allowed, nodup, disjoint from
the accumulator) appends it unchanged. -/
theorem canonMountFold_canonical (ts : List (List Char)) :
    ∀ out, (∀ t ∈ ts, t ∈ allowedMounts) → ts.Nodup → (∀ t ∈ ts, t ∉ out) →
      canonMountFold out ts = out ++ ts := by
  induction ts with
  | nil =>
    intro out _ _ _
    simp [canonMountFold]
  | cons t ts ih =>
    intro out hall hnd hdis
    have hstep : mountStep out t = out ++ [t] :=
      mountStep_canonical out t (hall t (by simp)) (hdis t (by simp))
    unfold canonMountFold
    rw [hstep,
      ih (out ++ [t]) (fun x hx => hall x (by simp [hx]))
        (List.Nodup.of_cons hnd)
        (fun x hx => by
          simp only [List.mem_append, List.mem_singleton]
          rintro (hmem | rfl)
          · exact hdis x (by simp [hx]) hmem
          · exact (List.nodup_cons.mp hnd).1 hx)]
    simp

/-- `List.map` distributes over `joinSep`. -/
theorem map_joinSep (f : Char → Char) (sep : List Char) (ds : List (List Char)) :
    (joinSep sep ds).map f = joinSep (sep.map f) (ds.map (List.map f)) := by
  induction ds with
  | nil => rfl
  | cons d ds ih =>
    cases ds with
    | nil => rfl
    | cons e es =>
      simp only [joinSep, List.map_append, List.map_cons]
      simp only [joinSep, List.map_cons] at ih
      rw [ih]

/-- `List.filter` distributes over `joinSep`. -/
theorem filter_joinSep (p : Char → Bool) (sep : List Char) (ds : List (List Char)) :
    (joinSep sep ds).filter p = joinSep (sep.filter p) (ds.map (List.filter p)) := by
  induction ds with
  | nil => rfl
  | cons d ds ih =>
    cases ds with
    | nil => rfl
    | cons e es =>
      simp only [joinSep, List.filter_append, List.map_cons]
      simp only [joinSep, List.map_cons] at ih
      rw [ih]

/-- Splitting a separator-free list returns it whole. -/
theorem splitOn_no_sep (sep : Char) (d : List Char) (hd : sep ∉ d) :
    splitOn sep d = [d] := by
  induction d with
  | nil => rfl
  | cons c cs ih =>
    simp only [List.mem_cons, not_or] at hd
    have hc : ¬ c = sep := fun h => hd.1 h.symm
    unfold splitOn
    rw [if_neg hc, ih hd.2]

/-- Splitting at the first separator after a separator-free chunk peels
the chunk off. -/
theorem splitOn_append (sep : Char) (d r : List Char) (hd : sep ∉ d) :
    splitOn sep (d ++ sep :: r) = d :: splitOn sep r := by
  induction d with
  | nil => simp [splitOn]
  | cons c cs ih =>
    simp only [List.mem_cons, not_or] at hd
    have hc : ¬ c = sep := fun h => hd.1 h.symm
    simp only [List.cons_append]
    conv_lhs => rw [splitOn]
    rw [if_neg hc, ih hd.2]

/-- `splitOn` is a left inverse of the single-character `joinSep` on
nonempty lists of separator-free chunks. -/
theorem splitOn_joinSep (sep : Char) (ds : List (List Char)) (hne : ds ≠ [])
    (hsep : ∀ d ∈ ds, sep ∉ d) :
    splitOn sep (joinSep [sep] ds) = ds := by
  induction ds with
  | nil => cases hne rfl
  | cons d ds ih =>
    cases ds with
    | nil => exact splitOn_no_sep sep d (hsep d (by simp))
    | cons e es =>
      have hjoin : joinSep [sep] (d :: e :: es) = d ++ sep :: joinSep [sep] (e :: es) := by
        simp [joinSep]
      rw [hjoin, splitOn_append sep _ _ (hsep d (by simp)),
        ih (by simp) (fun x hx => hsep x (by simp [hx]))]

/-- Mapping a function that fixes every member is the identity. -/
theorem map_fix {α : Type} (f : α → α) (out : List α)
    (h : ∀ x ∈ out, f x = x) : out.map f = out := by
  induction out with
  | nil => rfl
  | cons o os ih =>
    simp only [List.map_cons]
    rw [h o (by simp), ih (fun x hx => h x (by simp [hx]))]

/-- `String.data` undoes `String.mk`, mapped over a list. -/
theorem map_data_mk (out : List (List Char)) :
    (out.map (fun l => String.mk l)).map String.data = out := by
  induction out with
  | nil => rfl
  | cons o os ih =>
    simp only [List.map_cons]
    rw [ih]

/-- The `×`-replacement and space-removal of `_canon_mount_list` turn a
", "-join of allowed mount tokens into a ","-join. -/
theorem mount_join_pipeline (out : List (List Char))
    (hall : ∀ x ∈ out, x ∈ allowedMounts) :
    removeChar ' ' (replaceChar '×' 'x' (joinSep [',', ' '] out))
      = joinSep [','] out := by
  unfold replaceChar removeChar
  rw [map_joinSep, filter_joinSep, List.map_map]
  have hsep : List.filter (fun c => c ≠ ' ')
      (List.map (fun c => if c = '×' then 'x' else c) [',', ' ']) = [','] := by
    decide
  rw [hsep]
  congr 1
  apply map_fix
  intro x hx
  show List.filter _ (List.map _ x) = x
  have h1 : replaceChar '×' 'x' x = x := (allowedMounts_facts x (hall x hx)).1
  have h2 : removeChar ' ' x = x := (allowedMounts_facts x (hall x hx)).2.1
  unfold replaceChar at h1
  unfold removeChar at h2
  rw [h1, h2]

/-- Re-canonicalizing the ", "-join of a canonical mount list (allowed
tokens, no duplicates) recovers exactly that list. -/
theorem canonMountStr_join (out : List (List Char))
    (hall : ∀ x ∈ out, x ∈ allowedMounts) (hnd : out.Nodup) :
    canonMountStr (joinCommaSpace (out.map (fun l => String.mk l)))
      = out.map (fun l => String.mk l) := by
  cases out with
  | nil => decide
  | cons o os =>
    unfold canonMountStr
    have hdata : (joinCommaSpace ((o :: os).map (fun l => String.mk l))).data
        = joinSep [',', ' '] (o :: os) := by
      unfold joinCommaSpace
      show joinSep [',', ' '] (((o :: os).map (fun l => String.mk l)).map String.data)
        = joinSep [',', ' '] (o :: os)
      rw [map_data_mk]
    rw [hdata, mount_join_pipeline _ hall,
      splitOn_joinSep ',' _ (by simp)
        (fun d hd => (allowedMounts_facts d (hall d hd)).2.2.1),
      canonMountFold_canonical _ [] hall hnd (fun t _ => List.not_mem_nil t)]
    simp

/-- Removing a character a list never contained is the identity. -/
theorem removeChar_fix (a : Char) (l : List Char) (h : ∀ c ∈ l, c ≠ a) :
    removeChar a l = l := by
  unfold removeChar
  apply List.filter_eq_self.mpr
  intro x hx
  simpa using h x hx

/-- Members of a `removeChar` result: in the original, and not the
removed character. -/
theorem mem_removeChar (a : Char) (l : List Char) (c : Char)
    (h : c ∈ removeChar a l) : c ∈ l ∧ c ≠ a := by
  unfold removeChar at h
  refine ⟨List.mem_of_mem_filter h, ?_⟩
  simpa using List.of_mem_filter h

/-- RF canonicalization is idempotent: its non-null outputs are fixed
points. -/
theorem canonConnector_idem (v : Option String) (c : String)
    (h : canonConnector v = some c) : canonConnector (some c) = some c := by
  cases v with
  | none => simp [canonConnector] at h
  | some s =>
    unfold canonConnector at h
    dsimp only at h
    repeat' split at h
    all_goals first
      | (rw [Option.some.injEq] at h; subst h; decide)
      | simp at h

/-- Power-connector canonicalization fixes its non-null outputs that
carry no leading or trailing whitespace. -/
theorem canonPowerConn_strip_idem (v : Option String) (c : String)
    (h : canonPowerConn v = some c) (hstrip : pyStrip c.data = c.data) :
    canonPowerConn (some c) = some c := by
  cases v with
  | none => simp [canonPowerConn] at h
  | some s =>
    unfold canonPowerConn at h
    dsimp only at h
    split at h
    case isTrue h1 =>
      rw [Option.some.injEq] at h
      subst h
      decide
    case isFalse h1 =>
    split at h
    case isTrue h2 =>
      rw [Option.some.injEq] at h
      subst h
      decide
    case isFalse h2 =>
    split at h
    case isTrue h3 =>
      rw [Option.some.injEq] at h
      subst h
      decide
    case isFalse h3 =>
    split at h
    case isTrue h4 =>
      rw [Option.some.injEq] at h
      subst h
      decide
    case isFalse h4 =>
    split at h
    case isTrue h5 =>
      rw [Option.some.injEq] at h
      subst h
      decide
    case isFalse h5 =>
    split at h
    case isTrue h6 =>
      rw [Option.some.injEq] at h
      subst h
      decide
    case isFalse h6 =>
    rw [Option.some.injEq] at h
    subst h
    have hstrip' : pyStrip (removeChar '-' (removeChar ' '
        ((pyStrip s.data).map upChar)))
        = removeChar '-' (removeChar ' ' ((pyStrip s.data).map upChar)) := hstrip
    have hup : (removeChar '-' (removeChar ' '
        ((pyStrip s.data).map upChar))).map upChar
        = removeChar '-' (removeChar ' ' ((pyStrip s.data).map upChar)) := by
      apply map_fix
      intro x hx
      have hx1 := (mem_removeChar _ _ _ hx).1
      have hx2 := (mem_removeChar _ _ _ hx1).1
      obtain ⟨y, -, rfl⟩ := List.mem_map.mp hx2
      exact upChar_fix y
    have hsp : removeChar ' ' (removeChar '-' (removeChar ' '
        ((pyStrip s.data).map upChar)))
        = removeChar '-' (removeChar ' ' ((pyStrip s.data).map upChar)) := by
      apply removeChar_fix
      intro x hx
      exact (mem_removeChar _ _ _ (mem_removeChar _ _ _ hx).1).2
    have hhy : removeChar '-' (removeChar '-' (removeChar ' '
        ((pyStrip s.data).map upChar)))
        = removeChar '-' (removeChar ' ' ((pyStrip s.data).map upChar)) := by
      apply removeChar_fix
      intro x hx
      exact (mem_removeChar _ _ _ hx).2
    unfold canonPowerConn
    dsimp only
    rw [hstrip', hup, hsp, hhy]
    rw [if_neg h1, if_neg h2, if_neg h3, if_neg h4, if_neg h5, if_neg h6]

/-- `canonMountStr` unfolded once. -/
theorem canonMountStr_eq (s : String) : canonMountStr s
    = (canonMountFold [] (splitOn ',' (removeChar ' '
        (replaceChar '×' 'x' s.data)))).map (fun l => String.mk l) := rfl

/-- `canonMountOfList` unfolded once. -/
theorem canonMountOfList_eq (l : List String) : canonMountOfList l
    = (canonMountFold [] (l.map String.data)).map (fun l => String.mk l) := rfl

/-- C9 amended: the mount canonicalizer is idempotent through its
", "-join (for string and list input alike) and the RF canonicalizer's
non-null outputs are fixed points, as claimed; the power-connector
canonicalizer fixes a non-null output only when that output carries no
leading/trailing whitespace — removing spaces/hyphens can expose interior
whitespace at the ends (see the counterexample), in which case re-running
it strips further. -/
theorem canonicalizers_c9_amended :
    (∀ s : String, canonMountStr (joinCommaSpace (canonMountStr s))
      = canonMountStr s) ∧
    (∀ l : List String, canonMountStr (joinCommaSpace (canonMountOfList l))
      = canonMountOfList l) ∧
    (∀ (v : Option String) (c : String), canonConnector v = some c →
      canonConnector (some c) = some c) ∧
    (∀ (v : Option String) (c : String), canonPowerConn v = some c →
      pyStrip c.data = c.data → canonPowerConn (some c) = some c) := by
  refine ⟨?_, ?_, canonConnector_idem, canonPowerConn_strip_idem⟩
  · intro s
    rw [canonMountStr_eq s]
    exact canonMountStr_join _
      (fun x hx => (canonMountFold_mem _ [] x hx).resolve_left (by simp))
      (canonMountFold_nodup _ [] List.nodup_nil)
  · intro l
    rw [canonMountOfList_eq l]
    exact canonMountStr_join _
      (fun x hx => (canonMountFold_mem _ [] x hx).resolve_left (by simp))
      (canonMountFold_nodup _ [] List.nodup_nil)

/-- C9 witness: the amended idempotence applied to the RF token "mmcx"
and the power token "xt90". -/
theorem canonicalizers_c9_witness :
    canonConnector (some "MMCX") = some "MMCX" ∧
    canonPowerConn (some "XT90") = some "XT90" :=
  ⟨canonicalizers_c9_amended.2.2.1 (some "mmcx") "MMCX" (by decide),
   canonicalizers_c9_amended.2.2.2 (some "xt90") "XT90" (by decide) (by decide)⟩

/-- The pair key of a summary row is the table's key. -/
theorem sumRowOf_pair (kdf : String × Option DF) : (sumRowOf kdf).pair = kdf.1 := by
  unfold sumRowOf
  rcases kdf with ⟨k, _ | df⟩
  · rfl
  · dsimp only
    split
    · rfl
    · split <;> rfl

/-- The summary's pair keys are a permutation of the input keys. -/
theorem summarize_pairs_perm (compat : List (String × Option DF)) :
    ((summarize compat).map (fun r => r.pair)).Perm (compat.map Prod.fst) := by
  unfold summarize
  refine ((List.perm_insertionSort _ _).map _).trans ?_
  have h2 : (compat.map sumRowOf).map (fun r => r.pair) = compat.map Prod.fst := by
    rw [List.map_map]
    exact List.map_congr_left (fun kdf _ => sumRowOf_pair kdf)
  rw [h2]

/-- The status column determines the row count. -/
theorem statusCol_length (df : DF) (l : List String)
    (h : statusCol df = some l) : l.length = df.rows.length := by
  unfold statusCol at h
  cases hidx : statusIdx df with
  | none =>
    rw [hidx] at h
    simp at h
  | some i =>
    rw [hidx] at h
    rw [Option.some.injEq] at h
    subst h
    simp

/-- Length of a filtered cons when the head satisfies the predicate. -/
theorem filter_len_cons_true {α : Type} (p : α → Bool) (a : α) (l : List α)
    (h : p a = true) :
    (List.filter p (a :: l)).length = (List.filter p l).length + 1 := by
  simp [List.filter_cons, h]

/-- Length of a filtered cons when the head fails the predicate. -/
theorem filter_len_cons_false {α : Type} (p : α → Bool) (a : α) (l : List α)
    (h : p a = false) :
    (List.filter p (a :: l)).length = (List.filter p l).length := by
  simp [List.filter_cons, h]

/-- The three summarize buckets partition a PASS/FAIL/WARN status list. -/
theorem three_filter_partition (l : List String)
    (h : ∀ x ∈ l, x = "PASS" ∨ x = "FAIL" ∨ x = "WARN") :
    (l.filter (fun x => passValues.contains x)).length
      + (l.filter (fun x => x = "FAIL")).length
      + (l.filter (fun x => ¬ passValues.contains x ∧ x ≠ "FAIL")).length
      = l.length := by
  induction l with
  | nil => rfl
  | cons a l ih =>
    have ihl := ih (fun x hx => h x (by simp [hx]))
    rcases h a (by simp) with rfl | rfl | rfl
    · rw [filter_len_cons_true _ _ _ (by decide),
        filter_len_cons_false _ _ _ (by decide),
        filter_len_cons_false _ _ _ (by decide), List.length_cons]
      omega
    · rw [filter_len_cons_false _ _ _ (by decide),
        filter_len_cons_true _ _ _ (by decide),
        filter_len_cons_false _ _ _ (by decide), List.length_cons]
      omega
    · rw [filter_len_cons_false _ _ _ (by decide),
        filter_len_cons_false _ _ _ (by decide),
        filter_len_cons_true _ _ _ (by decide), List.length_cons]
      omega

/-- C10: `summarize` produces exactly one summary row per pair key (the
summary's keys are a permutation of the input keys), and for each key of
a mapping of result tables — tables whose status column holds only
PASS/FAIL/WARN — the three counts partition the rows:
pass + fail + unknown = row count, with a missing (`None`) table counted
as 0/0/0. -/
theorem summarize_partition (compat : List (String × Option DF))
    (hkeys : (compat.map Prod.fst).Nodup)
    (hstat : ∀ kdf ∈ compat, ∀ df, kdf.2 = some df →
      ∃ l, statusCol df = some l ∧
        ∀ x ∈ l, x = "PASS" ∨ x = "FAIL" ∨ x = "WARN") :
    ((summarize compat).map (fun r => r.pair)).Perm (compat.map Prod.fst) ∧
    ∀ r ∈ summarize compat, ∀ kdf ∈ compat, kdf.1 = r.pair →
      r.pass + r.fail + r.unknown
        = (match kdf.2 with | none => 0 | some df => df.rows.length) := by
  refine ⟨summarize_pairs_perm compat, ?_⟩
  intro r hr kdf hk hpair
  have hr' : r ∈ compat.map sumRowOf :=
    (List.perm_insertionSort _ _).subset hr
  obtain ⟨q, hq, rfl⟩ := List.mem_map.mp hr'
  have hkeq : kdf.1 = q.1 := by rw [hpair, sumRowOf_pair]
  have hqk : kdf = q := List.inj_on_of_nodup_map hkeys hk hq hkeq
  subst hqk
  rcases kdf with ⟨k, _ | df⟩
  · rfl
  · dsimp only
    obtain ⟨l, hl, hmem⟩ := hstat (k, some df) hk df rfl
    unfold sumRowOf
    dsimp only
    by_cases hempty : df.rows.isEmpty
    · rw [if_pos hempty]
      have : df.rows = [] := List.isEmpty_iff.mp hempty
      simp [this]
    · rw [if_neg hempty, hl]
      dsimp only
      rw [three_filter_partition l hmem, statusCol_length df l hl]

/-- A small result table for the C10 witness: three rows with statuses
PASS, WARN, FAIL. -/
def dfC10 : DF :=
  { cols := ["x_sku", "status", "reason"],
    rows := [[Cell.str "a", Cell.str "PASS", Cell.str "ok"],
             [Cell.str "b", Cell.str "WARN", Cell.str "hub"],
             [Cell.str "c", Cell.str "FAIL", Cell.str "no"]] }

/-- The C10 witness mapping: one populated table, one missing table. -/
def demoC10 : List (String × Option DF) := [("Compat_demo", some dfC10), ("Z", none)]

/-- C10 witness: the partition theorem applied to the concrete two-key
mapping. -/
theorem summarize_partition_witness :
    ((summarize demoC10).map (fun r => r.pair)).Perm (demoC10.map Prod.fst) :=
  (summarize_partition demoC10 (by decide)
    (by
      intro kdf hk df hdf
      simp only [demoC10, List.mem_cons, List.not_mem_nil, or_false] at hk
      rcases hk with rfl | rfl
      · rw [Option.some.injEq] at hdf
        subst hdf
        exact ⟨["PASS", "WARN", "FAIL"], by decide, by decide⟩
      · simp at hdf)).1
